import Mathlib

/-!
# EffectModifierControl (module/actor/effect-modifier-control.js)

A shallow embedding of the controller that keeps the Effect Modifier popout in
step with the host's token selection.  Every method of the class becomes a
function on an explicit state; a method that can raise a JavaScript TypeError
returns the state it leaves behind together with a flag saying that it raised.
The console.log lines are not part of the model, but the property reads that
feed them are, since two of them can raise.
-/

namespace Gurps

/-! ## Host objects -/

/-- Actor as the controller reads it: only its id. -/
structure Actor where
  id : String
  deriving DecidableEq, Repr

/-- Token object of the host canvas.  The field ref is the JavaScript object
identity, actor is none when the token has no actor (null). -/
structure Token where
  ref : Nat
  actor : Option Actor
  deriving DecidableEq, Repr

/-- JavaScript reference value that may be undefined, null or an object. -/
inductive JSRef (α : Type) where
  | undefined : JSRef α
  | null : JSRef α
  | obj (a : α) : JSRef α
  deriving DecidableEq, Repr

/-- Strict equality (===) between a reference value and the controller's token
field.  The field holds null (none) or a token object; objects are compared by
identity. -/
def strictEq : JSRef Token → Option Token → Bool
  | .null, none => true
  | .obj a, some b => a.ref == b.ref
  | _, _ => false

/-- Token document of the host: object is its canvas token, if any. -/
structure TokenDocument where
  object : JSRef Token
  deriving DecidableEq, Repr

/-- Owner of an active effect (effect.parent): only its id is read. -/
structure EffectParent where
  id : String
  deriving DecidableEq, Repr

/-- Active effect as the controller reads it; parent is none when nullish. -/
structure ActiveEffect where
  parent : Option EffectParent
  deriving DecidableEq, Repr

/-- Options object handed through to the popout on close, opaque to the controller. -/
structure CloseOptions where
  ref : Nat
  deriving DecidableEq, Repr

/-! ## The popout (Panel View) -/

/-- One call made by the controller on the popout. For closeApp, none is undefined. -/
inductive UiCall where
  | setToken (value : Option Token) : UiCall
  | render (force : Bool) : UiCall
  | closeApp (options : Option CloseOptions) : UiCall
  deriving DecidableEq, Repr

/-- Modelled from the spec: the class EffectModifierPopout (effect-modifier-popout.js)
is not among the sources.  The spec treats it as a black box reached through
setSubject, render and close; it is represented by the subject last set through
setToken and the log of the calls received, oldest first. -/
structure EffectModifierPopout where
  token : Option Token
  calls : List UiCall
  deriving DecidableEq, Repr

namespace EffectModifierPopout

/-- Constructor call of the ready hook: new EffectModifierPopout(null, this). -/
def new (token : Option Token) : EffectModifierPopout :=
  { token := token, calls := [] }

def setToken (ui : EffectModifierPopout) (value : Option Token) : EffectModifierPopout :=
  { token := value, calls := ui.calls ++ [UiCall.setToken value] }

def render (ui : EffectModifierPopout) (force : Bool) : EffectModifierPopout :=
  { ui with calls := ui.calls ++ [UiCall.render force] }

def closeApp (ui : EffectModifierPopout) (options : Option CloseOptions) : EffectModifierPopout :=
  { ui with calls := ui.calls ++ [UiCall.closeApp options] }

end EffectModifierPopout

/-! ## The scene-controls toolbar (DOM) -/

/-- Tool element (li) of a scene-control list: its class list, title, data-tool
attribute and the class of its icon child. -/
structure Li where
  classes : List String
  title : String
  dataTool : String
  icon : String
  deriving DecidableEq, Repr

/-- Element carrying a data-control attribute together with the tools of its ol list. -/
structure SceneControl where
  dataControl : String
  tools : List Li
  deriving DecidableEq, Repr

/-- Rendered scene controls: the controls in document order. -/
abbrev Html := List SceneControl

/-- The static EffectModName. -/
def EffectModName : String := "GURPSEffectsMod"

/-- Selector li.control-tool.toggle[data-tool=GURPSEffectsMod] on one element. -/
def Li.isEffectModToggle (li : Li) : Bool :=
  decide ("control-tool" ∈ li.classes) && decide ("toggle" ∈ li.classes)
    && (li.dataTool == EffectModName)

/-- Result of html.find for li.control-tool.toggle[data-tool=GURPSEffectsMod]. -/
def findExisting (html : Html) : List Li :=
  html.flatMap (fun c => c.tools.filter Li.isEffectModToggle)

/-- Result of find for [data-control=token] ol > li[data-tool=GURPSEffectsMod]. -/
def findToggle (document : Html) : List Li :=
  document.flatMap (fun c =>
    if c.dataControl = "token" then c.tools.filter (fun li => li.dataTool == EffectModName)
    else [])

/-- DOMTokenList.toggle: remove the class when present, add it otherwise. -/
def classListToggle (classes : List String) (c : String) : List String :=
  if c ∈ classes then classes.filter (fun x => x != c) else classes ++ [c]

/-- Toggle the class active on the first li[data-tool=GURPSEffectsMod] of a list,
none when the list has no such element. -/
def toggleFirstLi : List Li → Option (List Li)
  | [] => none
  | li :: rest =>
    if li.dataTool == EffectModName then
      some ({ li with classes := classListToggle li.classes "active" } :: rest)
    else (toggleFirstLi rest).map (fun r => li :: r)

/-- The statement toggle[0].classList.toggle(active) of togglePopup on the
document: the first match of findToggle gets its class list toggled; none when
there is no match, in which case toggle[0] is undefined and the statement raises. -/
def toggleActive : Html → Option Html
  | [] => none
  | c :: rest =>
    if c.dataControl = "token" then
      match toggleFirstLi c.tools with
      | some tools => some ({ c with tools := tools } :: rest)
      | none => (toggleActive rest).map (fun r => c :: r)
    else (toggleActive rest).map (fun r => c :: r)

/-- L69-70: list.append(btn) for list = html.find([data-control=token] ol). -/
def appendToTokenLists (html : Html) (btn : Li) : Html :=
  html.map (fun c => if c.dataControl = "token" then { c with tools := c.tools ++ [btn] } else c)

/-! ## Host settings -/

/-- The parts of the global game object the controller reads: the stored value of
the setting tokentools-show-effectmods and the localisation of GURPS.tokenToolsTitle. -/
structure Game where
  showEffectModifiers : Bool
  tokenToolsTitle : String
  deriving DecidableEq, Repr

/-! ## The controller -/

/-- State seen by the methods of EffectModifierControl once the ready hook has
built the popout: the fields _showPopup, token and _ui, the number of deferred
redraws scheduled with setTimeout and not yet fired, and the document's scene
controls (what the global find of togglePopup searches). -/
structure EffectModifierControl where
  _showPopup : Bool
  token : Option Token
  _ui : EffectModifierPopout
  timers : Nat
  document : Html
  deriving DecidableEq, Repr

/-- State a method leaves behind, and whether it raised. -/
structure Outcome where
  state : EffectModifierControl
  raised : Bool
  deriving DecidableEq, Repr

namespace EffectModifierControl

/-- Constructor followed by the ready hook: _showPopup = false, token = null,
_ui = new EffectModifierPopout(null, this). -/
def new (document : Html) : EffectModifierControl :=
  { _showPopup := false, token := none, _ui := EffectModifierPopout.new none,
    timers := 0, document := document }

/-- Getter showPopup. -/
def showPopup (s : EffectModifierControl) : Bool := s._showPopup

/-- L110-117. -/
def toggleEffectModifierPopup (closeOptions : Option CloseOptions)
    (s : EffectModifierControl) : EffectModifierControl :=
  if s.showPopup then
    { s with _ui := (s._ui.setToken s.token).render true }
  else
    { s with _ui := s._ui.closeApp closeOptions }

/-- L30-38.  The flag is negated first; then the toolbar button is looked up and
its class toggled, which raises when there is no such button. -/
def togglePopup (closeOptions : Option CloseOptions) (s : EffectModifierControl) : Outcome :=
  let s1 := { s with _showPopup := !s._showPopup }
  match toggleActive s1.document with
  | none => { state := s1, raised := true }
  | some d =>
    { state := toggleEffectModifierPopup closeOptions { s1 with document := d },
      raised := false }

/-- Setter showPopup (L26-28). -/
def setShowPopup (b : Bool) (s : EffectModifierControl) : Outcome :=
  if b != s.showPopup then togglePopup none s else { state := s, raised := false }

/-- Handler registered on closeEffectModifierPopout (L19): this.showPopup = false. -/
def closeEffectModifierPopout (s : EffectModifierControl) : Outcome :=
  setShowPopup false s

/-- L106-108. -/
def shouldUseEffectModifierPopup (game : Game) : Bool := game.showEffectModifiers

/-- Characters of a title that the HTML parser does not copy unchanged into the
double-quoted attribute value in which L60-64 interpolate it, unescaped: the double
quote (code 34) ends the value, the ampersand (38) starts a character reference, NUL
(0) and carriage return (13) are replaced on input, and the angle brackets (60, 62)
take part in the rewriting of self-closing tags that older jQuery applies to markup. -/
def markupSpecial : List Nat := [34, 38, 60, 62, 0, 13]

/-- Whether a title holds none of the characters of markupSpecial, so that the
markup of L60-64 carries it as the value of the title attribute and nothing else. -/
def plainTitle (title : String) : Bool :=
  title.toList.all (fun ch => !(markupSpecial.contains ch.toNat))

/-- The element jQuery builds at L60-64 from the markup
li class=control-tool toggle [active], title=TITLE, data-tool=GURPSEffectsMod with an
icon child, TITLE being interpolated unescaped.  For a plain title the markup is one
li element with exactly these attributes.  For any other title the markup reads
differently (a double quote ends the title early and the rest of it is parsed as
further attributes or content, so the element may carry another data-tool or none),
and the element is outside this model: none.  The click handler bound at L67
(togglePopup with no argument) is not a part of the markup. -/
def button (title : String) (active : Bool) : Option Li :=
  if plainTitle title then
    some { classes := if active then ["control-tool", "toggle", "active"]
                      else ["control-tool", "toggle"],
           title := title, dataTool := EffectModName, icon := "fas fa-list-alt" }
  else none

/-- L52-72, returning the html it was given after the call; none when the element it
appends is outside the model (see button). -/
def _createEffectModifierButton (game : Game) (s : EffectModifierControl) (html : Html) :
    Option Html :=
  let existing := findExisting html
  if shouldUseEffectModifierPopup game && existing.length == 0 then
    (button game.tokenToolsTitle s.showPopup).map (fun btn => appendToTokenLists html btn)
  else some html

/-- The expression effect?.parent.id: undefined (ok none) for a nullish effect,
a TypeError when the effect has no parent. -/
def effectParentId : Option ActiveEffect → Except String (Option String)
  | none => .ok none
  | some e =>
    match e.parent with
    | none => .error "TypeError"
    | some p => .ok (some p.id)

/-- The expression this.token?.actor.id: undefined (ok none) when no token is
tracked, a TypeError when the tracked token has no actor. -/
def tokenActorId : Option Token → Except String (Option String)
  | none => .ok none
  | some t =>
    match t.actor with
    | none => .error "TypeError"
    | some a => .ok (some a.id)

/-- L74-79. -/
def _createActiveEffect (effect : Option ActiveEffect) (s : EffectModifierControl) : Outcome :=
  match effectParentId effect with
  | .error _ => { state := s, raised := true }
  | .ok effectID =>
    match tokenActorId s.token with
    | .error _ => { state := s, raised := true }
    | .ok sharedStateID =>
      if effectID = sharedStateID then
        { state := { s with _ui := s._ui.render false }, raised := false }
      else { state := s, raised := false }

/-- L81-86. -/
def _updateToken (tokenDocument : TokenDocument) (s : EffectModifierControl) : EffectModifierControl :=
  if strictEq tokenDocument.object s.token then { s with _ui := s._ui.render false } else s

/-- L88-100.  The setTimeout callback is counted in timers and runs in timerFired. -/
def _controlToken (token : Token) (isControlled : Bool) (s : EffectModifierControl) :
    EffectModifierControl :=
  let tracked : Option Token :=
    if isControlled then some token
    else if strictEq (.obj token) s.token then none
    else s.token
  { s with token := tracked, _ui := s._ui.setToken tracked, timers := s.timers + 1 }

/-- One pending callback of L99 runs: self._ui.render(false). -/
def timerFired (s : EffectModifierControl) : EffectModifierControl :=
  match s.timers with
  | 0 => s
  | n + 1 => { s with timers := n, _ui := s._ui.render false }

/-- L102-104. -/
def close (options : Option CloseOptions) (s : EffectModifierControl) : Outcome :=
  if s.showPopup then togglePopup options s else { state := s, raised := false }

end EffectModifierControl

/-! ## Event sequences -/

/-- One event reaching the controller. -/
inductive Op where
  | togglePopup (closeOptions : Option CloseOptions) : Op
  | controlToken (token : Token) (isControlled : Bool) : Op
  | updateToken (tokenDocument : TokenDocument) : Op
  | createActiveEffect (effect : Option ActiveEffect) : Op
  | close (options : Option CloseOptions) : Op
  | panelClosed : Op
  | timerFired : Op
  deriving DecidableEq, Repr

open EffectModifierControl in
/-- State after one event; a handler that raises leaves the state it had reached. -/
def step (s : EffectModifierControl) : Op → EffectModifierControl
  | .togglePopup o => (togglePopup o s).state
  | .controlToken t b => _controlToken t b s
  | .updateToken d => _updateToken d s
  | .createActiveEffect e => (_createActiveEffect e s).state
  | .close o => (close o s).state
  | .panelClosed => (closeEffectModifierPopout s).state
  | .timerFired => timerFired s

/-- State after a sequence of events. -/
def run (s : EffectModifierControl) (ops : List Op) : EffectModifierControl :=
  ops.foldl step s

/-- Number of matches of html.find for [data-control=token] ol. -/
def tokenLists (html : Html) : Nat :=
  html.countP (fun c => c.dataControl == "token")

/-- Number of elements of the html that html.find reports as existing buttons. -/
def countButtons (html : Html) : Nat := (findExisting html).length

/-- The hook renderSceneControls firing n times on the same html. -/
def invocations (game : Game) (s : EffectModifierControl) : Nat → Html → Option Html
  | 0, html => some html
  | n + 1, html =>
    (EffectModifierControl._createEffectModifierButton game s html).bind (invocations game s n)

/-! ## Sample data -/

/-- Token with an actor. -/
def tokenA : Token := { ref := 1, actor := some { id := "actorA" } }

/-- Another token, with another actor. -/
def tokenB : Token := { ref := 2, actor := some { id := "actorB" } }

/-- Token whose actor is missing (actor is null). -/
def tokenNoActor : Token := { ref := 3, actor := none }

/-- Host tool of the token controls. -/
def selectTool : Li :=
  { classes := ["control-tool", "active"], title := "Select", dataTool := "select",
    icon := "fas fa-expand" }

/-- Scene controls as the host renders them: no Effect Modifier button. -/
def hostToolbar : Html :=
  [{ dataControl := "token", tools := [selectTool] }, { dataControl := "tiles", tools := [] }]

/-- The Effect Modifier button as built for the title Modifiers with the panel hidden. -/
def modifiersButton : Li :=
  { classes := ["control-tool", "toggle"], title := "Modifiers", dataTool := EffectModName,
    icon := "fas fa-list-alt" }

/-- Scene controls after _createEffectModifierButton has added the button. -/
def toolbar : Html :=
  [{ dataControl := "token", tools := [selectTool, modifiersButton] },
   { dataControl := "tiles", tools := [] }]

/-- State with tokenA tracked and the panel hidden. -/
def trackingA : EffectModifierControl :=
  EffectModifierControl._controlToken tokenA true (EffectModifierControl.new toolbar)

/-- State with tokenA tracked and the panel shown. -/
def shownA : EffectModifierControl :=
  (EffectModifierControl.togglePopup none trackingA).state

/-- Settings with the popup enabled. -/
def gameOn : Game := { showEffectModifiers := true, tokenToolsTitle := "Modifiers" }

end Gurps

namespace Gurps

open EffectModifierControl

/-! ## Lemmas on the toolbar lookup -/

theorem toggleFirstLi_eq_none_iff (l : List Li) :
    toggleFirstLi l = none ↔ l.filter (fun li => li.dataTool == EffectModName) = [] := by
  induction l with
  | nil => simp [toggleFirstLi]
  | cons li rest ih =>
    by_cases h : (li.dataTool == EffectModName) = true
    · simp [toggleFirstLi, h]
    · simp [toggleFirstLi, h, ih]

theorem toggleActive_eq_none_iff (d : Html) : toggleActive d = none ↔ findToggle d = [] := by
  induction d with
  | nil => simp [toggleActive, findToggle]
  | cons c rest ih =>
    unfold findToggle at ih ⊢
    by_cases hc : c.dataControl = "token"
    · cases hl : toggleFirstLi c.tools with
      | none =>
        have := (toggleFirstLi_eq_none_iff c.tools).1 hl
        simp [toggleActive, hc, hl, this, ih]
      | some tools =>
        have : ¬ c.tools.filter (fun li => li.dataTool == EffectModName) = [] := by
          intro h
          rw [← toggleFirstLi_eq_none_iff, hl] at h
          exact Option.noConfusion h
        simp [toggleActive, hc, hl, this]
    · simp [toggleActive, hc, ih]

theorem toggleActive_of_present (d : Html) (h : findToggle d ≠ []) :
    ∃ d2, toggleActive d = some d2 := by
  cases hd : toggleActive d with
  | none => exact absurd ((toggleActive_eq_none_iff d).1 hd) h
  | some d2 => exact ⟨d2, rfl⟩

theorem toggleFirstLi_keeps (l l2 : List Li) (h : toggleFirstLi l = some l2) :
    l2.filter (fun li => li.dataTool == EffectModName) ≠ [] := by
  induction l generalizing l2 with
  | nil => simp [toggleFirstLi] at h
  | cons li rest ih =>
    by_cases hli : (li.dataTool == EffectModName) = true
    · simp [toggleFirstLi, hli] at h
      subst h
      simp [List.filter, hli]
    · simp only [toggleFirstLi, hli] at h
      cases hr : toggleFirstLi rest with
      | none => simp [hr] at h
      | some r =>
        simp [hr] at h
        subst h
        simpa [List.filter, hli] using ih r hr

theorem toggleActive_keeps (d d2 : Html) (h : toggleActive d = some d2) : findToggle d2 ≠ [] := by
  induction d generalizing d2 with
  | nil => simp [toggleActive] at h
  | cons c rest ih =>
    by_cases hc : c.dataControl = "token"
    · cases hl : toggleFirstLi c.tools with
      | some tools =>
        simp [toggleActive, hc, hl] at h
        subst h
        have := toggleFirstLi_keeps c.tools tools hl
        simp [findToggle, hc, this]
      | none =>
        cases hr : toggleActive rest with
        | none => simp [toggleActive, hc, hl, hr] at h
        | some r =>
          simp [toggleActive, hc, hl, hr] at h
          subst h
          have := ih r hr
          unfold findToggle at this ⊢
          simp [hc, this]
    · cases hr : toggleActive rest with
      | none => simp [toggleActive, hc, hr] at h
      | some r =>
        simp [toggleActive, hc, hr] at h
        subst h
        have := ih r hr
        unfold findToggle at this ⊢
        simp [hc, this]

/-! ## togglePopup -/

theorem togglePopup_of_toggleActive (o : Option CloseOptions) (s : EffectModifierControl)
    (d : Html) (h : toggleActive s.document = some d) :
    togglePopup o s =
      { state := toggleEffectModifierPopup o { s with _showPopup := !s._showPopup, document := d },
        raised := false } := by
  simp [togglePopup, h]

theorem togglePopup_of_absent (o : Option CloseOptions) (s : EffectModifierControl)
    (h : findToggle s.document = []) :
    togglePopup o s = { state := { s with _showPopup := !s._showPopup }, raised := true } := by
  have := (toggleActive_eq_none_iff s.document).2 h
  simp [togglePopup, this]

/-- Claim C2.  With the toolbar button present in the document, togglePopup(closeOptions)
does not raise, negates _showPopup, leaves token unchanged, and appends to the popout's
call log exactly setToken(token), render(true) when the new flag is true and exactly
closeApp(closeOptions) when it is false. -/
theorem togglePopup_calls (s : EffectModifierControl) (closeOptions : Option CloseOptions)
    (h : findToggle s.document ≠ []) :
    (togglePopup closeOptions s).raised = false ∧
    (togglePopup closeOptions s).state._showPopup = (!s._showPopup) ∧
    (togglePopup closeOptions s).state.token = s.token ∧
    (togglePopup closeOptions s).state._ui.calls =
      s._ui.calls ++
        (if (togglePopup closeOptions s).state._showPopup then
          [UiCall.setToken s.token, UiCall.render true]
        else [UiCall.closeApp closeOptions]) := by
  obtain ⟨d, hd⟩ := toggleActive_of_present s.document h
  rw [togglePopup_of_toggleActive closeOptions s d hd]
  cases hs : s._showPopup <;>
    simp [toggleEffectModifierPopup, showPopup, hs, EffectModifierPopout.setToken,
      EffectModifierPopout.render, EffectModifierPopout.closeApp]

/-- Witness of C2 on the initial state with the button in the toolbar: the first
toggle shows the panel with setToken(null) then render(true). -/
theorem togglePopup_calls_witness :
    findToggle (EffectModifierControl.new toolbar).document ≠ [] ∧
    (togglePopup none (EffectModifierControl.new toolbar)).state._ui.calls =
      [UiCall.setToken none, UiCall.render true] :=
  ⟨by decide, by
    have h := (togglePopup_calls (EffectModifierControl.new toolbar) none (by decide)).2.2.2
    rw [h]; decide⟩

/-- Claim C9 as amended.  When the toolbar button is absent from the document,
togglePopup raises, and the state it leaves differs from the state before the call
in exactly one field: _showPopup has already been negated (token, the popout and its
call log are untouched).  When the button is present, togglePopup does not raise. -/
theorem togglePopup_raises_iff_absent (s : EffectModifierControl) (closeOptions : Option CloseOptions) :
    (findToggle s.document = [] →
      togglePopup closeOptions s =
        { state := { s with _showPopup := !s._showPopup }, raised := true }) ∧
    (findToggle s.document ≠ [] → (togglePopup closeOptions s).raised = false) := by
  refine ⟨togglePopup_of_absent closeOptions s, fun h => ?_⟩
  obtain ⟨d, hd⟩ := toggleActive_of_present s.document h
  rw [togglePopup_of_toggleActive closeOptions s d hd]

/-- Witness of the amended C9 on the host toolbar before the button exists. -/
theorem togglePopup_raises_iff_absent_witness :
    findToggle (EffectModifierControl.new hostToolbar).document = [] ∧
    togglePopup none (EffectModifierControl.new hostToolbar) =
      { state := { EffectModifierControl.new hostToolbar with _showPopup := true },
        raised := true } :=
  ⟨by decide,
   (togglePopup_raises_iff_absent (EffectModifierControl.new hostToolbar) none).1 (by decide)⟩

/-- Counterexample to C9 as stated: on the host toolbar without the button the
failed togglePopup has changed PanelVisibility from false to true. -/
theorem togglePopup_failed_flips_flag :
    findToggle (EffectModifierControl.new hostToolbar).document = [] ∧
    (togglePopup none (EffectModifierControl.new hostToolbar)).raised = true ∧
    (EffectModifierControl.new hostToolbar)._showPopup = false ∧
    (togglePopup none (EffectModifierControl.new hostToolbar)).state._showPopup = true := by
  decide

/-! ## _controlToken -/

/-- Claim C3.  After _controlToken(subject, isSelected) the tracked token is subject
when isSelected is true.  When isSelected is false it is null if the tracked token is
the same object as subject (same object reference; in particular if it is subject
itself), and it is the previous value, unchanged, if the tracked token is a
different object or if nothing was tracked.  _showPopup is unchanged in all cases. -/
theorem controlToken_tracked (s : EffectModifierControl) (subject : Token) (isSelected : Bool) :
    (isSelected = true → (_controlToken subject isSelected s).token = some subject) ∧
    (isSelected = false → ∀ cur : Token, s.token = some cur → cur.ref = subject.ref →
      (_controlToken subject isSelected s).token = none) ∧
    (isSelected = false → s.token = some subject →
      (_controlToken subject isSelected s).token = none) ∧
    (isSelected = false → ∀ cur : Token, s.token = some cur → cur.ref ≠ subject.ref →
      (_controlToken subject isSelected s).token = some cur) ∧
    (isSelected = false → s.token = none →
      (_controlToken subject isSelected s).token = none) ∧
    (_controlToken subject isSelected s)._showPopup = s._showPopup := by
  refine ⟨?_, ?_, ?_, ?_, ?_, rfl⟩
  · intro h; simp [_controlToken, h]
  · intro h cur hc hr
    simp [_controlToken, h, hc, strictEq, hr]
  · intro h hc
    simp [_controlToken, h, hc, strictEq]
  · intro h cur hc hr
    have hne : ¬ subject.ref = cur.ref := fun e => hr e.symm
    simp [_controlToken, h, hc, strictEq, hne]
  · intro h hc
    simp [_controlToken, h, hc, strictEq]

/-- Witness of C3 with tokenA tracked: deselecting tokenB, a different object, leaves
tokenA tracked (the selection guard), deselecting tokenA clears the tracked token,
and selecting tokenB replaces it. -/
theorem controlToken_tracked_witness :
    trackingA.token = some tokenA ∧ tokenA.ref ≠ tokenB.ref ∧
    (_controlToken tokenB false trackingA).token = some tokenA ∧
    (_controlToken tokenA false trackingA).token = none ∧
    (_controlToken tokenB true trackingA).token = some tokenB :=
  ⟨by decide, by decide,
   (controlToken_tracked trackingA tokenB false).2.2.2.1 rfl tokenA (by decide) (by decide),
   (controlToken_tracked trackingA tokenA false).2.2.1 rfl (by decide),
   (controlToken_tracked trackingA tokenB true).1 rfl⟩

/-- Claim C6 as amended.  Before it returns, _controlToken sends the popout exactly
one call, setToken with the updated tracked token, and no render call; it schedules
one deferred redraw, and that redraw, when it fires, is render(false). -/
theorem controlToken_calls (s : EffectModifierControl) (subject : Token) (isSelected : Bool) :
    (_controlToken subject isSelected s)._ui.calls =
      s._ui.calls ++ [UiCall.setToken (_controlToken subject isSelected s).token] ∧
    (_controlToken subject isSelected s)._ui.token = (_controlToken subject isSelected s).token ∧
    (_controlToken subject isSelected s).timers = s.timers + 1 ∧
    (timerFired (_controlToken subject isSelected s))._ui.calls =
      s._ui.calls ++
        [UiCall.setToken (_controlToken subject isSelected s).token, UiCall.render false] := by
  simp [_controlToken, timerFired, EffectModifierPopout.setToken, EffectModifierPopout.render]

/-- Counterexample to C6 as stated: selecting tokenA in the initial state sends
setToken(tokenA) only; no render(true) is sent, neither before the handler returns nor
when the deferred redraw fires. -/
theorem controlToken_no_forced_render :
    (_controlToken tokenA true (EffectModifierControl.new toolbar))._ui.calls =
      [UiCall.setToken (some tokenA)] ∧
    UiCall.render true ∉ (_controlToken tokenA true (EffectModifierControl.new toolbar))._ui.calls ∧
    UiCall.render true ∉
      (timerFired (_controlToken tokenA true (EffectModifierControl.new toolbar)))._ui.calls := by
  decide

/-! ## The closeEffectModifierPopout handler -/

/-- Claim C5 as amended.  After the closeEffectModifierPopout handler _showPopup is
false and token is unchanged.  The handler sends the popout nothing when the panel
was already hidden (or the toolbar button is absent); when the panel was visible and
the button is present, the setter runs togglePopup() and the popout receives exactly
one closeApp(undefined). -/
theorem closeEffectModifierPopout_calls (s : EffectModifierControl) :
    (closeEffectModifierPopout s).state._showPopup = false ∧
    (closeEffectModifierPopout s).state.token = s.token ∧
    (closeEffectModifierPopout s).state._ui.token = s._ui.token ∧
    (closeEffectModifierPopout s).state._ui.calls =
      s._ui.calls ++
        (if s._showPopup = true ∧ findToggle s.document ≠ [] then [UiCall.closeApp none]
         else []) := by
  cases hs : s._showPopup
  · simp [closeEffectModifierPopout, setShowPopup, showPopup, hs]
  · by_cases h : findToggle s.document = []
    · simp [closeEffectModifierPopout, setShowPopup, showPopup, hs,
        togglePopup_of_absent none s h, h]
    · obtain ⟨d, hd⟩ := toggleActive_of_present s.document h
      simp [closeEffectModifierPopout, setShowPopup, showPopup, hs,
        togglePopup_of_toggleActive none s d hd, h, toggleEffectModifierPopup,
        EffectModifierPopout.closeApp]

/-- Counterexample to C5 as stated: with the panel shown for tokenA, the handler
sends closeApp(undefined) to the popout. -/
theorem closeEffectModifierPopout_sends_close :
    shownA._showPopup = true ∧
    (closeEffectModifierPopout shownA).state._ui.calls =
      shownA._ui.calls ++ [UiCall.closeApp none] ∧
    (closeEffectModifierPopout shownA).state._ui.calls ≠ shownA._ui.calls := by
  decide

/-! ## The popout shows the tracked token -/

theorem togglePopup_keeps_subject (o : Option CloseOptions) (s : EffectModifierControl)
    (h : s._ui.token = s.token) :
    (togglePopup o s).state._ui.token = (togglePopup o s).state.token ∧
    (togglePopup o s).state.token = s.token := by
  cases hd : toggleActive s.document with
  | none => simp [togglePopup, hd, h]
  | some d =>
    rw [togglePopup_of_toggleActive o s d hd]
    cases hs : s._showPopup <;>
      simp [toggleEffectModifierPopup, showPopup, hs, h, EffectModifierPopout.setToken,
        EffectModifierPopout.render, EffectModifierPopout.closeApp]

theorem createActiveEffect_state (e : Option ActiveEffect) (s : EffectModifierControl) :
    (_createActiveEffect e s).state._showPopup = s._showPopup ∧
    (_createActiveEffect e s).state.token = s.token ∧
    (_createActiveEffect e s).state._ui.token = s._ui.token := by
  unfold _createActiveEffect
  split
  · simp
  · split
    · simp
    · split <;> simp [EffectModifierPopout.render]

theorem step_keeps_subject (s : EffectModifierControl) (op : Op) (h : s._ui.token = s.token) :
    (step s op)._ui.token = (step s op).token := by
  cases op with
  | togglePopup o => exact (togglePopup_keeps_subject o s h).1
  | controlToken t b => simp [step, _controlToken, EffectModifierPopout.setToken]
  | updateToken d =>
    simp only [step, _updateToken]
    split <;> simp [h, EffectModifierPopout.render]
  | createActiveEffect e =>
    have := createActiveEffect_state e s
    simp only [step]
    rw [this.2.1, this.2.2, h]
  | close o =>
    simp only [step, close]
    split
    · exact (togglePopup_keeps_subject o s h).1
    · exact h
  | panelClosed =>
    simp only [step, closeEffectModifierPopout, setShowPopup]
    split
    · exact (togglePopup_keeps_subject none s h).1
    · exact h
  | timerFired =>
    simp only [step, timerFired]
    split <;> simp [h, EffectModifierPopout.render]

theorem run_keeps_subject (s : EffectModifierControl) (ops : List Op) (h : s._ui.token = s.token) :
    (run s ops)._ui.token = (run s ops).token := by
  induction ops generalizing s with
  | nil => exact h
  | cons op rest ih => exact ih (step s op) (step_keeps_subject s op h)

theorem new_subject (document : Html) :
    (EffectModifierControl.new document)._ui.token = (EffectModifierControl.new document).token :=
  rfl

/-- Claim C1.  In every state reached from the initial state (hidden, no token
tracked, popout built with a null token) by any sequence of togglePopup,
_controlToken, _updateToken, _createActiveEffect, close, the closeEffectModifierPopout
handler and the firing of a deferred redraw, if _showPopup is true then the token
last given to the popout through setToken is the tracked token; in particular this
holds right after a togglePopup that makes the panel visible following any sequence
of _controlToken calls.  The document is arbitrary, which covers every document
that holds the toolbar button. -/
theorem visible_panel_shows_tracked_token :
    (∀ (document : Html) (ops : List Op),
      (run (EffectModifierControl.new document) ops)._showPopup = true →
      (run (EffectModifierControl.new document) ops)._ui.token =
        (run (EffectModifierControl.new document) ops).token) ∧
    (∀ (document : Html) (selections : List (Token × Bool)) (o : Option CloseOptions),
      (togglePopup o (run (EffectModifierControl.new document)
        (selections.map (fun c => Op.controlToken c.1 c.2)))).state._showPopup = true →
      (togglePopup o (run (EffectModifierControl.new document)
        (selections.map (fun c => Op.controlToken c.1 c.2)))).state._ui.token =
      (togglePopup o (run (EffectModifierControl.new document)
        (selections.map (fun c => Op.controlToken c.1 c.2)))).state.token) := by
  refine ⟨fun document ops _ => run_keeps_subject _ ops (new_subject document), ?_⟩
  intro document selections o _
  exact (togglePopup_keeps_subject o _
    (run_keeps_subject _ _ (new_subject document))).1

/-- Witness of C1: select tokenA, open the panel, select tokenB, deselect tokenA, let
a deferred redraw fire; the panel is visible and shows the tracked token, tokenB. -/
theorem visible_panel_shows_tracked_token_witness :
    (run (EffectModifierControl.new toolbar)
      [Op.controlToken tokenA true, Op.togglePopup none, Op.controlToken tokenB true,
       Op.controlToken tokenA false, Op.timerFired])._showPopup = true ∧
    (run (EffectModifierControl.new toolbar)
      [Op.controlToken tokenA true, Op.togglePopup none, Op.controlToken tokenB true,
       Op.controlToken tokenA false, Op.timerFired]).token = some tokenB ∧
    (run (EffectModifierControl.new toolbar)
      [Op.controlToken tokenA true, Op.togglePopup none, Op.controlToken tokenB true,
       Op.controlToken tokenA false, Op.timerFired])._ui.token =
    (run (EffectModifierControl.new toolbar)
      [Op.controlToken tokenA true, Op.togglePopup none, Op.controlToken tokenB true,
       Op.controlToken tokenA false, Op.timerFired]).token :=
  ⟨by decide, by decide, visible_panel_shows_tracked_token.1 toolbar _ (by decide)⟩

theorem toggleEffectModifierPopup_document (o : Option CloseOptions) (s : EffectModifierControl) :
    (toggleEffectModifierPopup o s).document = s.document := by
  unfold toggleEffectModifierPopup
  split <;> rfl

/-- Claim C4.  In a state reached from the initial state through the controller's
operations and with the toolbar button present, two successive togglePopup calls both
complete without raising and leave _showPopup, the token held by the popout and the
tracked token as they were before the first call. -/
theorem togglePopup_twice (document : Html) (ops : List Op) (a b : Option CloseOptions)
    (s : EffectModifierControl) (hs : s = run (EffectModifierControl.new document) ops)
    (h : findToggle s.document ≠ []) :
    (togglePopup a s).raised = false ∧
    (togglePopup b (togglePopup a s).state).raised = false ∧
    (togglePopup b (togglePopup a s).state).state._showPopup = s._showPopup ∧
    (togglePopup b (togglePopup a s).state).state._ui.token = s._ui.token ∧
    (togglePopup b (togglePopup a s).state).state.token = s.token := by
  have hinv : s._ui.token = s.token := by
    rw [hs]; exact run_keeps_subject _ ops (new_subject document)
  obtain ⟨d1, hd1⟩ := toggleActive_of_present s.document h
  have h1 := togglePopup_of_toggleActive a s d1 hd1
  have hdoc : (togglePopup a s).state.document = d1 := by
    rw [h1]; exact toggleEffectModifierPopup_document a _
  have hpres : findToggle (togglePopup a s).state.document ≠ [] := by
    rw [hdoc]; exact toggleActive_keeps s.document d1 hd1
  obtain ⟨d2, hd2⟩ := toggleActive_of_present _ hpres
  have h2 := togglePopup_of_toggleActive b (togglePopup a s).state d2 hd2
  rw [h2]
  rw [h1]
  cases hsp : s._showPopup <;>
    simp [toggleEffectModifierPopup, showPopup, hsp, hinv, EffectModifierPopout.setToken,
      EffectModifierPopout.render, EffectModifierPopout.closeApp]

/-- Witness of C4 on the state that has the panel shown for tokenA. -/
theorem togglePopup_twice_witness :
    findToggle shownA.document ≠ [] ∧
    (togglePopup none (togglePopup none shownA).state).state._showPopup = shownA._showPopup ∧
    (togglePopup none (togglePopup none shownA).state).state._ui.token = shownA._ui.token :=
  ⟨by decide,
   (togglePopup_twice toolbar [Op.controlToken tokenA true, Op.togglePopup none] none none
      shownA (by decide) (by decide)).2.2.1,
   (togglePopup_twice toolbar [Op.controlToken tokenA true, Op.togglePopup none] none none
      shownA (by decide) (by decide)).2.2.2.1⟩

/-! ## _updateToken and _createActiveEffect -/

theorem updateToken_calls (s : EffectModifierControl) (d : TokenDocument) :
    (_updateToken d s)._ui.calls =
      s._ui.calls ++ (if strictEq d.object s.token then [UiCall.render false] else []) ∧
    (_updateToken d s)._showPopup = s._showPopup ∧
    (_updateToken d s).token = s.token ∧
    (_updateToken d s)._ui.token = s._ui.token := by
  unfold _updateToken
  split <;> simp_all [EffectModifierPopout.render]

/-- Claim C7 at its failing input: with no token tracked, _updateToken for a token
document whose object is null sends the popout render(false), since null === null;
a document whose object is undefined, or a token object, sends nothing there. -/
theorem updateToken_null_object_renders :
    (EffectModifierControl.new toolbar).token = none ∧
    (_updateToken { object := JSRef.null } (EffectModifierControl.new toolbar))._ui.calls =
      [UiCall.render false] ∧
    (_updateToken { object := JSRef.undefined } (EffectModifierControl.new toolbar))._ui.calls = [] ∧
    (_updateToken { object := JSRef.obj tokenA } (EffectModifierControl.new toolbar))._ui.calls = [] := by
  decide

/-- Claim C8 at its failing inputs: _createActiveEffect raises when the tracked token
has no actor, raises when the effect has no parent, and with neither a tracked token
nor an effect it sends render(false), since undefined === undefined. -/
theorem createActiveEffect_raises :
    (_controlToken tokenNoActor true (EffectModifierControl.new toolbar)).token =
      some tokenNoActor ∧
    (_createActiveEffect (some { parent := some { id := "actorA" } })
      (_controlToken tokenNoActor true (EffectModifierControl.new toolbar))).raised = true ∧
    (_createActiveEffect (some { parent := none }) trackingA).raised = true ∧
    (_createActiveEffect none (EffectModifierControl.new toolbar)).state._ui.calls =
      [UiCall.render false] := by
  decide

theorem createActiveEffect_calls (s : EffectModifierControl) (p : EffectParent) (t : Token)
    (a : Actor) (ht : s.token = some t) (ha : t.actor = some a) :
    (_createActiveEffect (some { parent := some p }) s).raised = false ∧
    (_createActiveEffect (some { parent := some p }) s).state._ui.calls =
      s._ui.calls ++ (if p.id = a.id then [UiCall.render false] else []) := by
  by_cases h : p.id = a.id <;>
    simp [_createActiveEffect, effectParentId, tokenActorId, ht, ha, h, EffectModifierPopout.render]

/-! ## _createEffectModifierButton -/

theorem button_of_plain (title : String) (active : Bool) (ht : plainTitle title = true) :
    ∃ btn, button title active = some btn := by
  simp [button, ht]

theorem button_some (title : String) (active : Bool) (btn : Li)
    (h : button title active = some btn) :
    btn.isEffectModToggle = true ∧ btn.dataTool = EffectModName ∧ btn.title = title ∧
    ("active" ∈ btn.classes ↔ active = true) := by
  unfold button at h
  split at h
  · cases h
    cases active <;> simp [Li.isEffectModToggle, EffectModName]
  · exact Option.noConfusion h

theorem countButtons_append (html : Html) (btn : Li) (hb : btn.isEffectModToggle = true) :
    countButtons (appendToTokenLists html btn) = countButtons html + tokenLists html := by
  induction html with
  | nil => simp [countButtons, findExisting, appendToTokenLists, tokenLists]
  | cons c rest ih =>
    simp only [countButtons, findExisting, appendToTokenLists, tokenLists] at ih ⊢
    by_cases hc : c.dataControl = "token"
    · simp [hc, hb, List.filter_append] at ih ⊢
      omega
    · simp [hc] at ih ⊢
      omega

theorem tokenLists_append (html : Html) (btn : Li) :
    tokenLists (appendToTokenLists html btn) = tokenLists html := by
  induction html with
  | nil => rfl
  | cons c rest ih =>
    simp only [appendToTokenLists, tokenLists] at ih ⊢
    by_cases hc : c.dataControl = "token" <;> simp [hc, ih]

theorem append_single (html : Html) (btn : Li) (h : tokenLists html = 1) :
    ∃ pre c post, html = pre ++ c :: post ∧ c.dataControl = "token" ∧
      (∀ x ∈ pre ++ post, x.dataControl ≠ "token") ∧
      appendToTokenLists html btn = pre ++ { c with tools := c.tools ++ [btn] } :: post := by
  induction html with
  | nil => simp [tokenLists] at h
  | cons c rest ih =>
    by_cases hc : c.dataControl = "token"
    · have hrest : tokenLists rest = 0 := by
        simp [tokenLists, hc] at h ⊢
        exact h
      have hnone : ∀ x ∈ rest, x.dataControl ≠ "token" := by
        simpa [tokenLists] using hrest
      refine ⟨[], c, rest, rfl, hc, by simpa using hnone, ?_⟩
      have : appendToTokenLists rest btn = rest := by
        unfold appendToTokenLists
        conv_rhs => rw [← List.map_id rest]
        apply List.map_congr_left
        intro x hx
        simp [hnone x hx]
      simp [appendToTokenLists, hc] at this ⊢
      exact this
    · have hrest : tokenLists rest = 1 := by
        simpa [tokenLists, hc] using h
      obtain ⟨pre, c2, post, e, hc2, hno, happ⟩ := ih hrest
      refine ⟨c :: pre, c2, post, by simp [e], hc2, ?_, ?_⟩
      · intro x hx
        simp only [List.cons_append, List.mem_cons] at hx
        rcases hx with rfl | hx
        · exact hc
        · exact hno x hx
      · simp only [appendToTokenLists] at happ ⊢
        simp [hc, happ]

theorem createButton_of_gate (game : Game) (s : EffectModifierControl) (html : Html)
    (btn : Li) (hb : button game.tokenToolsTitle s._showPopup = some btn)
    (hg : shouldUseEffectModifierPopup game = true) (h0 : countButtons html = 0) :
    _createEffectModifierButton game s html = some (appendToTokenLists html btn) := by
  simp only [countButtons] at h0
  simp [_createEffectModifierButton, hg, h0, showPopup, hb]

theorem createButton_of_not (game : Game) (s : EffectModifierControl) (html : Html)
    (h : ¬ (shouldUseEffectModifierPopup game = true ∧ countButtons html = 0)) :
    _createEffectModifierButton game s html = some html := by
  simp only [countButtons] at h
  simp only [_createEffectModifierButton]
  split
  · rename_i hc
    simp only [Bool.and_eq_true, beq_iff_eq] at hc
    exact absurd hc h
  · rfl

theorem createButton_count (game : Game) (s : EffectModifierControl) (html : Html)
    (ht : plainTitle game.tokenToolsTitle = true)
    (h : tokenLists html = 1) (h1 : countButtons html ≤ 1) :
    ∃ out, _createEffectModifierButton game s html = some out ∧
      tokenLists out = 1 ∧ countButtons out ≤ 1 := by
  by_cases hc : shouldUseEffectModifierPopup game = true ∧ countButtons html = 0
  · obtain ⟨btn, hb⟩ := button_of_plain game.tokenToolsTitle s._showPopup ht
    refine ⟨_, createButton_of_gate game s html btn hb hc.1 hc.2, ?_, ?_⟩
    · rw [tokenLists_append, h]
    · rw [countButtons_append html btn (button_some _ _ btn hb).1, h, hc.2]
  · exact ⟨html, createButton_of_not game s html hc, h, h1⟩

theorem invocations_count (game : Game) (s : EffectModifierControl) (n : Nat) (html : Html)
    (ht : plainTitle game.tokenToolsTitle = true)
    (h : tokenLists html = 1) (h1 : countButtons html ≤ 1) :
    ∃ out, invocations game s n html = some out ∧ countButtons out ≤ 1 := by
  induction n generalizing html with
  | zero => exact ⟨html, rfl, h1⟩
  | succ n ih =>
    obtain ⟨mid, hmid, hm1, hm2⟩ := createButton_count game s html ht h h1
    obtain ⟨out, hout, ho⟩ := ih mid hm1 hm2
    exact ⟨out, by simp [invocations, hmid, hout], ho⟩

/-- Claim C10.  The title of the button comes from the localisation table, which is
not among the sources; it is taken as any plain title (one the markup of L60-64
carries unchanged).  On a toolbar with a single token-control list,
_createEffectModifierButton appends exactly one GURPSEffectsMod button (carrying the
class active iff _showPopup is true) to that list when shouldUseEffectModifierPopup()
is true and the toolbar holds no such button, and leaves the toolbar unchanged
otherwise; invoking it twice gives the same toolbar as invoking it once, whatever
_showPopup is at the second invocation; and the toolbar, which holds no such button
as the host renders it and at most one once the function has run, holds at most one
after any number of invocations. -/
theorem createEffectModifierButton_once (game : Game) (s s2 : EffectModifierControl)
    (html : Html) (h : tokenLists html = 1) (ht : plainTitle game.tokenToolsTitle = true) :
    (shouldUseEffectModifierPopup game = true → countButtons html = 0 →
      ∃ pre c post btn, html = pre ++ c :: post ∧ c.dataControl = "token" ∧
        (∀ x ∈ pre ++ post, x.dataControl ≠ "token") ∧
        btn.isEffectModToggle = true ∧ btn.dataTool = EffectModName ∧
        btn.title = game.tokenToolsTitle ∧
        ("active" ∈ btn.classes ↔ s._showPopup = true) ∧
        _createEffectModifierButton game s html =
          some (pre ++ { c with tools := c.tools ++ [btn] } :: post) ∧
        countButtons (pre ++ { c with tools := c.tools ++ [btn] } :: post) = 1) ∧
    (¬ (shouldUseEffectModifierPopup game = true ∧ countButtons html = 0) →
      _createEffectModifierButton game s html = some html) ∧
    (∃ once, _createEffectModifierButton game s html = some once ∧
      _createEffectModifierButton game s2 once = some once) ∧
    (countButtons html ≤ 1 →
      ∀ n, ∃ out, invocations game s n html = some out ∧ countButtons out ≤ 1) := by
  refine ⟨?_, createButton_of_not game s html, ?_,
    fun h1 n => invocations_count game s n html ht h h1⟩
  · intro hg h0
    obtain ⟨btn, hb⟩ := button_of_plain game.tokenToolsTitle s._showPopup ht
    obtain ⟨pre, c, post, e, hc, hno, happ⟩ := append_single html btn h
    have hbtn := button_some _ _ btn hb
    refine ⟨pre, c, post, btn, e, hc, hno, hbtn.1, hbtn.2.1, hbtn.2.2.1, hbtn.2.2.2, ?_, ?_⟩
    · rw [createButton_of_gate game s html btn hb hg h0, happ]
    · rw [← happ, countButtons_append html btn hbtn.1, h, h0]
  · by_cases hc : shouldUseEffectModifierPopup game = true ∧ countButtons html = 0
    · obtain ⟨btn, hb⟩ := button_of_plain game.tokenToolsTitle s._showPopup ht
      refine ⟨_, createButton_of_gate game s html btn hb hc.1 hc.2, ?_⟩
      apply createButton_of_not
      rw [countButtons_append html btn (button_some _ _ btn hb).1, h, hc.2]
      simp
    · exact ⟨html, createButton_of_not game s html hc, createButton_of_not game s2 html hc⟩

/-- Witness of C10 on the toolbar as the host renders it, with the popup enabled and
the title Modifiers: the first invocation adds the button, marked active because the
panel is shown, a second invocation (panel hidden meanwhile) changes nothing, and
three invocations leave exactly one button. -/
theorem createEffectModifierButton_once_witness :
    tokenLists hostToolbar = 1 ∧ plainTitle gameOn.tokenToolsTitle = true ∧
    countButtons hostToolbar = 0 ∧
    _createEffectModifierButton gameOn shownA hostToolbar =
      some [{ dataControl := "token",
              tools := [selectTool,
                { classes := ["control-tool", "toggle", "active"], title := "Modifiers",
                  dataTool := "GURPSEffectsMod", icon := "fas fa-list-alt" }] },
            { dataControl := "tiles", tools := [] }] ∧
    (∃ once, _createEffectModifierButton gameOn shownA hostToolbar = some once ∧
      _createEffectModifierButton gameOn trackingA once = some once) ∧
    (∃ out, invocations gameOn shownA 3 hostToolbar = some out ∧ countButtons out ≤ 1) :=
  ⟨by decide, by decide, by decide, by decide,
   (createEffectModifierButton_once gameOn shownA trackingA hostToolbar (by decide)
     (by decide)).2.2.1,
   (createEffectModifierButton_once gameOn shownA trackingA hostToolbar (by decide)
     (by decide)).2.2.2 (by decide) 3⟩

end Gurps
